import Mathlib

/-!
Verification of the Trancendos discovery scanners
(src/scripts/discovery/scan-repositories.py and
src/scripts/discovery/scan-platforms.py) against their natural-language
specification.  The Python code is shallowly embedded: every platform call
that can raise a GithubException is modelled as an `Except` field of the
repository record, Python exceptions of the extraction code are modelled
with `Except`, and the mutable accumulator `self.scan_results` is modelled
by explicit state passing through a fold.
-/

namespace Trancendos

/-- The five classification labels of scan-repositories.py
(the keys of scan_results["classifications"]). -/
inductive Classification where
  | CORE
  | ACTIVE
  | CONSOLIDATE
  | ARCHIVE
  | DEPRECATE
deriving DecidableEq, Repr

/-- Error raised by a GitHub API call (GithubException in the source). -/
inductive GhError where
  | github (msg : String)
deriving DecidableEq, Repr

/-- One workflow record, as built in scan_repository from repo.get_workflows(). -/
structure Workflow where
  name : String
  path : String
  state : String
deriving DecidableEq, Repr

deriving instance DecidableEq for Except

/-- Shallow embedding of the PyGithub repository object as seen by
scan-repositories.py.  Plain attributes become fields; each method call that
performs I/O and may raise becomes an `Except GhError _` field holding the
outcome that call would have.  `daysSinceCommit` models the
`(datetime.now() - latest_commit.commit.author.date).days` computation in
classify_repository: `none` when the commits fetch raised or the repository
has no commits (the source then uses the 999 sentinel), `some d` otherwise. -/
structure Repo where
  id : Nat
  name : String
  full_name : String
  description : Option String
  html_url : String
  isPrivate : Bool              -- repo.private in the source
  fork : Bool
  archived : Bool
  disabled : Bool
  created_at : String
  updated_at : String
  pushed_at : Option String
  size : Nat
  default_branch : String
  stargazers_count : Nat
  forks_count : Nat
  watchers_count : Nat
  open_issues_count : Nat
  has_issues : Bool
  has_projects : Bool
  has_wiki : Bool
  has_pages : Bool
  has_downloads : Bool
  license : Option String
  daysSinceCommit : Option Nat
  getWorkflows : Except GhError (List Workflow)
  getLanguages : Except GhError (List (String × Nat))
  getBranches : Except GhError (List String)
  getTags : Except GhError (List String)
  getTopics : Except GhError (List String)
deriving DecidableEq, Repr

/-- The hard-coded CORE allow-list of classify_repository. -/
def core_repos : List String :=
  [ "trancendos-ecosystem"
  , "Luminous-MastermindAI"
  , "Trancendos-Core"
  , "compliance-framework"
  , "platform-sync-buffer"
  , "Trancendos" ]

/-- RepositoryScanner.classify_repository.  The metric retrieval
`try: ... except: days_since_commit = 999` is embedded as
`repo.daysSinceCommit.getD 999`.  The source also binds
`stars = repo.stargazers_count` and `forks = repo.forks_count` but never
uses them in any rule. -/
def classify_repository (repo : Repo) : Classification :=
  let days_since_commit := repo.daysSinceCommit.getD 999
  if repo.name ∈ core_repos then .CORE
  else if days_since_commit < 30 ∨ repo.open_issues_count > 5 then .ACTIVE
  else if days_since_commit > 180 ∧ repo.size > 0 then .ARCHIVE
  else if repo.fork = true ∨ repo.size = 0 then .DEPRECATE
  else .CONSOLIDATE

/-- A guarded classification rule: a predicate on the repository record and
the label returned when the predicate holds. -/
def PolicyRule : Type := (Repo → Bool) × Classification

/-- First-match evaluation of an ordered rule list; the default bucket when
no rule matches is CONSOLIDATE (spec rule 6). -/
def firstMatch : List PolicyRule → Repo → Classification
  | [], _ => .CONSOLIDATE
  | (p, c) :: rest, r => if p r then c else firstMatch rest r

/-- The ordered rule list written from the words of the specification
(section 4.2, rules 1-6): CORE allow-list, then ACTIVE by recency or open
items (unknown recency treated as the maximal-staleness sentinel), then
ARCHIVE by staleness and non-emptiness, then DEPRECATE by fork or zero
size, with CONSOLIDATE as the default bucket. -/
def specRules : List PolicyRule :=
  [ (fun r => decide (r.name ∈ core_repos), .CORE)
  , (fun r => decide (r.daysSinceCommit.getD 999 < 30 ∨ r.open_issues_count > 5), .ACTIVE)
  , (fun r => decide (r.daysSinceCommit.getD 999 > 180 ∧ r.size > 0), .ARCHIVE)
  , (fun r => decide (r.fork = true ∨ r.size = 0), .DEPRECATE) ]

/-- A convenient fully concrete repository used to build test fixtures. -/
def baseRepo : Repo :=
  { id := 1
  , name := "some-repo"
  , full_name := "Trancendos/some-repo"
  , description := none
  , html_url := "https://example.invalid/some-repo"
  , isPrivate := false
  , fork := false
  , archived := false
  , disabled := false
  , created_at := "2024-01-01T00:00:00"
  , updated_at := "2024-06-01T00:00:00"
  , pushed_at := none
  , size := 10
  , default_branch := "main"
  , stargazers_count := 0
  , forks_count := 0
  , watchers_count := 0
  , open_issues_count := 0
  , has_issues := true
  , has_projects := true
  , has_wiki := true
  , has_pages := false
  , has_downloads := true
  , license := none
  , daysSinceCommit := some 100
  , getWorkflows := .ok []
  , getLanguages := .ok [("Python", 1000)]
  , getBranches := .ok ["main"]
  , getTags := .ok []
  , getTopics := .ok [] }

/-- The per-repository dictionary repo_data built by
RepositoryScanner.scan_repository. -/
structure RepoData where
  id : Nat
  name : String
  full_name : String
  description : Option String
  html_url : String
  classification : Classification
  visibility : String
  fork : Bool
  archived : Bool
  disabled : Bool
  created_at : String
  updated_at : String
  pushed_at : Option String
  size_kb : Nat
  default_branch : String
  languages : List (String × Nat)
  stars : Nat
  forks : Nat
  watchers : Nat
  open_issues : Nat
  has_issues : Bool
  has_projects : Bool
  has_wiki : Bool
  has_pages : Bool
  has_downloads : Bool
  topics : List String
  branches : List String
  tags : List String
  workflows : List Workflow
  license : Option String
deriving DecidableEq, Repr

/-- RepositoryScanner.scan_repository.  The workflows fetch sits in its own
`try: ... except: pass`, so its failure degrades to an empty workflow list;
the languages, branches, tags and topics fetches are guarded only by the
outer `except GithubException`, which prints the error and returns None
(here `none`).  In the source a successful call also appends repo_data and
repo.name to the mutable self.scan_results; that accumulation is modelled
in the scan fold below. -/
def scan_repository (repo : Repo) : Option RepoData :=
  let workflows : List Workflow :=
    match repo.getWorkflows with
    | .ok ws => ws
    | .error _ => []
  match repo.getLanguages with
  | .error _ => none
  | .ok languages =>
    match repo.getBranches with
    | .error _ => none
    | .ok branches =>
      match repo.getTags with
      | .error _ => none
      | .ok tags =>
        match repo.getTopics with
        | .error _ => none
        | .ok topics =>
          some
            { id := repo.id
            , name := repo.name
            , full_name := repo.full_name
            , description := repo.description
            , html_url := repo.html_url
            , classification := classify_repository repo
            , visibility := if repo.isPrivate then "private" else "public"
            , fork := repo.fork
            , archived := repo.archived
            , disabled := repo.disabled
            , created_at := repo.created_at
            , updated_at := repo.updated_at
            , pushed_at := repo.pushed_at
            , size_kb := repo.size
            , default_branch := repo.default_branch
            , languages := languages
            , stars := repo.stargazers_count
            , forks := repo.forks_count
            , watchers := repo.watchers_count
            , open_issues := repo.open_issues_count
            , has_issues := repo.has_issues
            , has_projects := repo.has_projects
            , has_wiki := repo.has_wiki
            , has_pages := repo.has_pages
            , has_downloads := repo.has_downloads
            , topics := topics
            , branches := branches
            , tags := tags.take 10
            , workflows := workflows
            , license := repo.license }

/-- The five lists of scan_results["classifications"], keyed by label. -/
structure Classifications where
  CORE : List String
  ACTIVE : List String
  CONSOLIDATE : List String
  ARCHIVE : List String
  DEPRECATE : List String
deriving DecidableEq, Repr

/-- Append a repository name to the bucket of its classification
(self.scan_results["classifications"][classification].append(repo.name)). -/
def Classifications.add (c : Classifications) : Classification → String → Classifications
  | .CORE, n => { c with CORE := c.CORE ++ [n] }
  | .ACTIVE, n => { c with ACTIVE := c.ACTIVE ++ [n] }
  | .CONSOLIDATE, n => { c with CONSOLIDATE := c.CONSOLIDATE ++ [n] }
  | .ARCHIVE, n => { c with ARCHIVE := c.ARCHIVE ++ [n] }
  | .DEPRECATE, n => { c with DEPRECATE := c.DEPRECATE ++ [n] }

/-- The mutable self.scan_results of RepositoryScanner (the timestamp field
is omitted: it is set once in the constructor and never read by the scan). -/
structure ScanResults where
  scanner_version : String
  total_repos : Nat
  repositories : List RepoData
  classifications : Classifications
deriving DecidableEq, Repr

/-- scan_results as initialised in RepositoryScanner.__init__. -/
def initResults : ScanResults :=
  { scanner_version := "1.0.0"
  , total_repos := 0
  , repositories := []
  , classifications := ⟨[], [], [], [], []⟩ }

/-- The loop guard `if max_repos and count >= max_repos: break` with Python
truthiness: None and 0 are both falsy, so the break can only fire for a
positive max_repos. -/
def maxReached (max_repos : Option Nat) (count : Nat) : Bool :=
  match max_repos with
  | none => false
  | some m => !(m == 0) && (m ≤ count)

/-- One iteration body of the scan_all_repositories loop: on a successful
scan the repo_data and name are appended (in the source this mutation
happens inside scan_repository); on a None result only the error line is
printed and the accumulator is untouched. -/
def scanStep (repo : Repo) (res : ScanResults) : ScanResults :=
  match scan_repository repo with
  | some rd =>
    { res with
      repositories := res.repositories ++ [rd]
    , classifications := res.classifications.add rd.classification repo.name }
  | none => res

/-- The `for repo in repos` loop of scan_all_repositories: break when the
guard fires, otherwise run the body and increment count.  Returns the final
count together with the accumulated results. -/
def scanLoop : List Repo → Option Nat → Nat → ScanResults → Nat × ScanResults
  | [], _, count, res => (count, res)
  | repo :: rest, max_repos, count, res =>
    if maxReached max_repos count then (count, res)
    else scanLoop rest max_repos (count + 1) (scanStep repo res)

/-- RepositoryScanner.scan_all_repositories: run the loop from count 0 over
the enumerated repositories, then store the final count in total_repos. -/
def scan_all_repositories (repos : List Repo) (max_repos : Option Nat) : ScanResults :=
  let (count, res) := scanLoop repos max_repos 0 initResults
  { res with total_repos := count }

/-- A Python exception raised while extracting a Notion record: KeyError
from a direct subscript such as page["id"], IndexError from indexing an
empty list. -/
inductive ExtractError where
  | keyError
  | indexError
deriving DecidableEq, Repr

/-- One entry of a Notion rich-text title array, as read by
.get("plain_text", "Untitled").  `none` models an entry without a
plain_text key (the {} that the .get default produces). -/
structure RawTitleItem where
  plain_text : Option String
deriving DecidableEq, Repr

/-- A raw Notion page record.  `id` is read with page["id"] (a missing key
raises KeyError, hence the Option).  `titleList` collapses the chain
page.get("properties", \x7b\x7d).get("title", \x7b\x7d).get("title", [\x7b\x7d]):
`none` means some link of the chain was absent, in which case the source
falls back to the default one-element list [\x7b\x7d]; `some l` means the
final title array is present and equal to l. -/
structure RawPage where
  id : Option String
  titleList : Option (List RawTitleItem)
  url : Option String
  created_time : Option String
  last_edited_time : Option String
deriving DecidableEq, Repr

/-- A raw Notion database record; `titleList` collapses
db.get("title", [\x7b\x7d]) the same way. -/
structure RawDb where
  id : Option String
  titleList : Option (List RawTitleItem)
  url : Option String
deriving DecidableEq, Repr

/-- The per-page dictionary appended to `pages` in scan_notion. -/
structure PageData where
  id : String
  title : String
  url : Option String
  created_time : Option String
  last_edited_time : Option String
deriving DecidableEq, Repr

/-- The per-database dictionary appended to `databases` in scan_notion. -/
structure DbData where
  id : String
  title : String
  url : Option String
deriving DecidableEq, Repr

/-- The body of the `for page in results.get("results", [])` loop:
`page["id"]` raises KeyError when the key is absent; the title chain takes
the default [\x7b\x7d] only when a link of the chain is absent, then applies
`[0]`, which raises IndexError when the present title array is empty; the
remaining fields use .get and degrade to `none`. -/
def extract_page (p : RawPage) : Except ExtractError PageData := do
  let id ← match p.id with
    | some i => pure i
    | none => throw .keyError
  let items := p.titleList.getD [{ plain_text := none }]
  let first ← match items with
    | [] => throw .indexError
    | x :: _ => pure x
  pure
    { id := id
    , title := first.plain_text.getD "Untitled"
    , url := p.url
    , created_time := p.created_time
    , last_edited_time := p.last_edited_time }

/-- The body of the `for db in db_results.get("results", [])` loop, with the
same subscript and indexing behaviour as extract_page. -/
def extract_db (d : RawDb) : Except ExtractError DbData := do
  let id ← match d.id with
    | some i => pure i
    | none => throw .keyError
  let items := d.titleList.getD [{ plain_text := none }]
  let first ← match items with
    | [] => throw .indexError
    | x :: _ => pure x
  pure
    { id := id
    , title := first.plain_text.getD "Untitled"
    , url := d.url }

/-- Run an extraction loop over a list of raw records; the first raised
exception aborts the loop and propagates (to the enclosing
`except Exception` handler of scan_notion). -/
def extractAll (f : α → Except ExtractError β) : List α → Except ExtractError (List β)
  | [] => .ok []
  | a :: as =>
    match f a with
    | .error e => .error e
    | .ok b =>
      match extractAll f as with
      | .error e => .error e
      | .ok bs => .ok (b :: bs)

/-- The observable behaviour of the notion_client collaborator inside
scan_notion: the import can fail (ImportError), any API call can raise
(caught as `except Exception`), or the two search calls return the raw page
and database lists. -/
inductive NotionClient where
  | unavailable
  | failing (msg : String)
  | ok (pages : List RawPage) (databases : List RawDb)
deriving DecidableEq, Repr

/-- The dictionary a platform scan method returns: the success shape of
scan_notion, its skipped and error shapes, and the not_implemented shape of
scan_linear and scan_jira. -/
inductive PlatformResult where
  | success (total_pages total_databases : Nat)
      (pages : List PageData) (databases : List DbData)
  | skipped (reason : String)
  | error (msg : String)
  | notImplemented
deriving DecidableEq, Repr

/-- Render an ExtractError the way str(e) appears in the error status. -/
def ExtractError.message : ExtractError → String
  | .keyError => "KeyError: id"
  | .indexError => "IndexError: list index out of range"

/-- PlatformScanner.scan_notion.  On ImportError it returns the skipped
status; any exception from the client or from the extraction loops is
caught by `except Exception` and becomes the error status; otherwise it
returns success with total_pages and total_databases counted over the full
extracted lists, the pages list truncated to 50 (`pages[:50]`) and the
databases list untruncated. -/
def scan_notion (client : NotionClient) (_api_key : String) : PlatformResult :=
  match client with
  | .unavailable => .skipped "notion-client not installed"
  | .failing msg => .error msg
  | .ok rawPages rawDbs =>
    match extractAll extract_page rawPages with
    | .error e => .error e.message
    | .ok pages =>
      match extractAll extract_db rawDbs with
      | .error e => .error e.message
      | .ok databases =>
        .success pages.length databases.length (pages.take 50) databases

/-- PlatformScanner.scan_linear: a stub returning not_implemented. -/
def scan_linear (_api_key : String) : PlatformResult := .notImplemented

/-- PlatformScanner.scan_jira: a stub returning not_implemented. -/
def scan_jira (_api_token : String) : PlatformResult := .notImplemented

/-- The three credential environment variables read by scan_all_platforms. -/
structure Env where
  NOTION_API_KEY : Option String
  LINEAR_API_KEY : Option String
  JIRA_API_TOKEN : Option String
deriving DecidableEq, Repr

/-- Python truthiness of os.environ.get: None and the empty string are
falsy, any other string is truthy. -/
def pyTruthy : Option String → Bool
  | none => false
  | some s => !(s == "")

/-- The scan_results dictionary of PlatformScanner (timestamp omitted as
in ScanResults): the platforms mapping in insertion order. -/
structure PlatformsResults where
  scanner_version : String
  platforms : List (String × PlatformResult)
deriving DecidableEq, Repr

/-- PlatformScanner.scan_all_platforms: for each of the three platforms,
if its credential is truthy in the environment, run its scan method and
store the result under the platform key; otherwise only print a warning —
nothing is stored for that platform. -/
def scan_all_platforms (env : Env) (notion : NotionClient) : PlatformsResults :=
  let ps : List (String × PlatformResult) := []
  let ps := if pyTruthy env.NOTION_API_KEY then
    ps ++ [("notion", scan_notion notion (env.NOTION_API_KEY.getD ""))] else ps
  let ps := if pyTruthy env.LINEAR_API_KEY then
    ps ++ [("linear", scan_linear (env.LINEAR_API_KEY.getD ""))] else ps
  let ps := if pyTruthy env.JIRA_API_TOKEN then
    ps ++ [("jira", scan_jira (env.JIRA_API_TOKEN.getD ""))] else ps
  { scanner_version := "1.0.0", platforms := ps }

/-- A fully well-formed raw page fixture. -/
def okRawPage : RawPage :=
  { id := some "page-1"
  , titleList := some [{ plain_text := some "Home" }]
  , url := some "https://example.invalid/p1"
  , created_time := some "2024-01-01"
  , last_edited_time := some "2024-06-01" }

/-- A raw page whose properties.title.title array is present but empty. -/
def emptyTitlePage : RawPage :=
  { id := some "page-2"
  , titleList := some []
  , url := none
  , created_time := none
  , last_edited_time := none }

/-- A repository whose languages fetch raises: scan_repository prints the
error and returns None. -/
def badRepo : Repo :=
  { baseRepo with name := "bad-repo", getLanguages := .error (.github "boom") }

/-- A repository whose every fetch succeeds. -/
def okRepo : Repo := { baseRepo with name := "ok-repo" }

/-- A repository whose branches fetch raises while everything else,
including the workflows fetch, succeeds. -/
def branchFailRepo : Repo :=
  { baseRepo with name := "branch-fail", getBranches := .error (.github "api down") }

/-- Sixty identical well-formed raw pages, more than the 50-entry summary
truncation of scan_notion. -/
def manyRawPages : List RawPage := List.replicate 60 okRawPage

/-- The page dictionary extract_page produces from okRawPage. -/
def okPageData : PageData :=
  { id := "page-1"
  , title := "Home"
  , url := some "https://example.invalid/p1"
  , created_time := some "2024-01-01"
  , last_edited_time := some "2024-06-01" }

/-!  Theorems for the claims. -/

/-- classify_repository reads only the name, the days-since-commit metric,
the open issue count, the size and the fork flag. -/
theorem classify_repository_congr (r₁ r₂ : Repo)
    (h1 : r₁.name = r₂.name)
    (h2 : r₁.daysSinceCommit = r₂.daysSinceCommit)
    (h3 : r₁.open_issues_count = r₂.open_issues_count)
    (h4 : r₁.size = r₂.size)
    (h5 : r₁.fork = r₂.fork) :
    classify_repository r₁ = classify_repository r₂ := by
  simp only [classify_repository, h1, h2, h3, h4, h5]

/-- C1.  The classification policy is first-match evaluation of the ordered
rule list CORE allow-list, ACTIVE by recency or open items, ARCHIVE by
staleness and non-emptiness, DEPRECATE by fork or zero size, CONSOLIDATE
otherwise; in particular an allow-listed repository is CORE regardless of
every other field, and a non-allow-listed fork with 5 days since the last
commit is ACTIVE (rule 3 fires before rule 5). -/
theorem C1_classification_order :
    (∀ r : Repo, classify_repository r = firstMatch specRules r) ∧
    (∀ r : Repo, r.name ∈ core_repos → classify_repository r = .CORE) ∧
    (∀ r : Repo, r.name ∉ core_repos → r.fork = true → r.daysSinceCommit = some 5 →
      classify_repository r = .ACTIVE) := by
  refine ⟨?_, ?_, ?_⟩
  · intro r
    simp only [classify_repository, firstMatch, specRules, decide_eq_true_eq]
  · intro r h
    simp [classify_repository, h]
  · intro r h hf hd
    simp [classify_repository, h, hd]

/-- Witness for C1 at concrete repositories: a forked, empty, stale
allow-listed repository is CORE, and a non-allow-listed fork with
daysSinceCommit = 5 is ACTIVE. -/
theorem C1_classification_order_witness :
    classify_repository
        { baseRepo with
          name := "Trancendos"
          fork := true
          size := 0
          daysSinceCommit := none } = .CORE ∧
    classify_repository { baseRepo with fork := true, daysSinceCommit := some 5 } =
      .ACTIVE :=
  ⟨C1_classification_order.2.1 _ (by decide),
   C1_classification_order.2.2 _ (by decide) (by decide) rfl⟩

/-- C2.  The classification policy is a pure function of the resource
record: it reads only the name, the days-since-commit metric, the open
issue count, the size and the fork flag, so any two records agreeing on
those fields — whatever their other metadata and whatever their fetch
outcomes — are classified identically; two runs over the same record are
trivially identical because the embedding is a total function with no
effects. -/
theorem C2_policy_pure_deterministic :
    ∀ r₁ r₂ : Repo,
      r₁.name = r₂.name →
      r₁.daysSinceCommit = r₂.daysSinceCommit →
      r₁.open_issues_count = r₂.open_issues_count →
      r₁.size = r₂.size →
      r₁.fork = r₂.fork →
      classify_repository r₁ = classify_repository r₂ := by
  intro r₁ r₂ h1 h2 h3 h4 h5
  exact classify_repository_congr r₁ r₂ h1 h2 h3 h4 h5

/-- Witness for C2: changing the star, fork and watcher counts and failing
every fetch leaves the classification unchanged. -/
theorem C2_policy_pure_deterministic_witness :
    classify_repository baseRepo =
      classify_repository
        { baseRepo with
          stargazers_count := 999
          forks_count := 7
          watchers_count := 3
          getWorkflows := .error (.github "x")
          getLanguages := .error (.github "x") } :=
  C2_policy_pure_deterministic _ _ rfl rfl rfl rfl rfl

/-- C7.  A repository whose days-since-commit metric could not be retrieved
gets the 999 sentinel, which fails the strict recency test (999 < 30) and
so such a repository is ACTIVE exactly when it is not allow-listed and its
open issue count exceeds 5: unknown activity can reach ACTIVE only through
the open-item condition, never the recency condition. -/
theorem C7_unknown_activity_never_active_by_recency :
    ∀ r : Repo, r.daysSinceCommit = none →
      (classify_repository r = .ACTIVE ↔
        (r.name ∉ core_repos ∧ r.open_issues_count > 5)) := by
  intro r hd
  by_cases hm : r.name ∈ core_repos <;> by_cases hi : r.open_issues_count > 5 <;>
    simp [classify_repository, hd, hm, hi] <;> split_ifs <;> simp

/-- Witness for C7: an unknown-activity repository with 6 open issues is
ACTIVE; by the same equivalence one with 5 open issues is not. -/
theorem C7_unknown_activity_witness :
    classify_repository
        { baseRepo with
          daysSinceCommit := none
          open_issues_count := 6 } = .ACTIVE :=
  ((C7_unknown_activity_never_active_by_recency _ rfl).mpr (by decide))

/-- C8.  The ACTIVE thresholds are strict: a non-allow-listed repository
with exactly 30 days since the last commit and at most 5 open issues is not
ACTIVE (the comparison is a strict less-than), while one with exactly 6
open issues is ACTIVE (strictly greater than 5). -/
theorem C8_strict_thresholds :
    ∀ r : Repo, r.name ∉ core_repos →
      ((r.daysSinceCommit = some 30 → r.open_issues_count ≤ 5 →
          classify_repository r ≠ .ACTIVE) ∧
        (r.open_issues_count = 6 → classify_repository r = .ACTIVE)) := by
  intro r hm
  constructor
  · intro hd hi
    simp [classify_repository, hd, hm, Nat.not_lt.mpr hi] <;> split_ifs <;> simp
  · intro hi
    simp [classify_repository, hm, hi]

/-- Witness for C8 at concrete repositories: days exactly 30 gives
CONSOLIDATE-or-other but not ACTIVE, and 6 open issues gives ACTIVE. -/
theorem C8_strict_thresholds_witness :
    (classify_repository { baseRepo with daysSinceCommit := some 30 } ≠ .ACTIVE) ∧
    classify_repository { baseRepo with open_issues_count := 6 } = .ACTIVE :=
  ⟨(C8_strict_thresholds _ (by decide)).1 rfl (by decide),
   (C8_strict_thresholds _ (by decide)).2 rfl⟩

/-- The guard is falsy when no limit is given, so one loop iteration runs
the body and recurses. -/
theorem scanLoop_cons_none (repo : Repo) (rest : List Repo) (c : Nat) (res : ScanResults) :
    scanLoop (repo :: rest) none c res = scanLoop rest none (c + 1) (scanStep repo res) :=
  rfl

/-- The guard is falsy when the limit is 0 (Python truthiness), so the
iteration runs the body and recurses exactly as with no limit. -/
theorem scanLoop_cons_zero (repo : Repo) (rest : List Repo) (c : Nat) (res : ScanResults) :
    scanLoop (repo :: rest) (some 0) c res =
      scanLoop rest (some 0) (c + 1) (scanStep repo res) :=
  rfl

/-- With no limit the loop guard never fires, so the accumulated results do
not depend on the running count. -/
theorem scanLoop_none_res_count_irrel :
    ∀ (repos : List Repo) (c₁ c₂ : Nat) (res : ScanResults),
      (scanLoop repos none c₁ res).2 = (scanLoop repos none c₂ res).2 := by
  intro repos
  induction repos with
  | nil => intro c₁ c₂ res; rfl
  | cons repo rest ih =>
    intro c₁ c₂ res
    rw [scanLoop_cons_none, scanLoop_cons_none]
    exact ih (c₁ + 1) (c₂ + 1) _

/-- With no limit the final count is the starting count plus the number of
enumerated repositories. -/
theorem scanLoop_none_count :
    ∀ (repos : List Repo) (c : Nat) (res : ScanResults),
      (scanLoop repos none c res).1 = c + repos.length := by
  intro repos
  induction repos with
  | nil => intro c res; simp [scanLoop]
  | cons repo rest ih =>
    intro c res
    rw [scanLoop_cons_none, ih]
    simp
    omega

/-- A limit of 0 is falsy in the loop guard, so it behaves exactly like no
limit: the whole enumeration is processed. -/
theorem scanLoop_zero_count :
    ∀ (repos : List Repo) (c : Nat) (res : ScanResults),
      (scanLoop repos (some 0) c res).1 = c + repos.length := by
  intro repos
  induction repos with
  | nil => intro c res; simp [scanLoop]
  | cons repo rest ih =>
    intro c res
    rw [scanLoop_cons_zero, ih]
    simp
    omega

/-- With a positive limit m the loop stops as soon as the count reaches m. -/
theorem scanLoop_pos_count :
    ∀ (repos : List Repo) (m c : Nat) (res : ScanResults), 0 < m →
      (scanLoop repos (some m) c res).1 = c + min (m - c) repos.length := by
  intro repos
  induction repos with
  | nil => intro m c res hm; simp [scanLoop]
  | cons repo rest ih =>
    intro m c res hm
    simp only [scanLoop, List.length_cons]
    by_cases hc : m ≤ c
    · rw [if_pos]
      · simp
        omega
      · simp [maxReached]
        omega
    · rw [if_neg]
      · rw [ih _ _ _ hm]
        omega
      · simp [maxReached]
        omega

/-- C9 amended.  total_repos is the number of resources the loop processed:
with no limit, or with the limit 0 (falsy in Python), the whole enumeration
is processed; with a positive limit m, min m (length) resources are
processed and then the loop stops. -/
theorem C9_limit_semantics :
    ∀ (repos : List Repo) (max_repos : Option Nat),
      (scan_all_repositories repos max_repos).total_repos =
        match max_repos with
        | none => repos.length
        | some m => if 0 < m then min m repos.length else repos.length := by
  intro repos max_repos
  match max_repos with
  | none => simp [scan_all_repositories, scanLoop_none_count]
  | some 0 => simp [scan_all_repositories, scanLoop_zero_count]
  | some (m + 1) =>
    simp [scan_all_repositories, scanLoop_pos_count repos (m + 1) 0 initResults (by omega)]

/-- Witness for C9 amended: a positive limit of 1 over two repositories
processes exactly one. -/
theorem C9_limit_semantics_witness :
    (scan_all_repositories [baseRepo, okRepo] (some 1)).total_repos =
      (if 0 < 1 then min 1 [baseRepo, okRepo].length else [baseRepo, okRepo].length) :=
  C9_limit_semantics [baseRepo, okRepo] (some 1)

/-- C9 counterexample.  With the explicit limit 0 over two repositories the
claim demands that at most 0 resources be processed, but the Python guard
`if max_repos and count >= max_repos` is falsy at 0, so both repositories
are scanned and appear in the results. -/
theorem C9_zero_limit_counterexample :
    (scan_all_repositories [baseRepo, okRepo] (some 0)).total_repos = 2 ∧
    (scan_all_repositories [baseRepo, okRepo] (some 0)).repositories.map RepoData.name =
      ["some-repo", "ok-repo"] := by
  decide

/-- C4 amended.  A per-resource failure never aborts the scan of the
remaining resources — the loop continues and produces exactly the results
of scanning the rest — but the suppressed failure leaves no record in the
result data: the repositories list and the classification buckets are
those of a scan without the failing resource, and only the undifferentiated
total_repos count acknowledges that it was visited. -/
theorem C4_failure_continues_but_unrecorded :
    ∀ (bad : Repo) (rest : List Repo), scan_repository bad = none →
      (scan_all_repositories (bad :: rest) none).repositories =
        (scan_all_repositories rest none).repositories ∧
      (scan_all_repositories (bad :: rest) none).classifications =
        (scan_all_repositories rest none).classifications ∧
      (scan_all_repositories (bad :: rest) none).total_repos =
        (scan_all_repositories rest none).total_repos + 1 := by
  intro bad rest hbad
  have hstep : scanStep bad initResults = initResults := by
    simp [scanStep, hbad]
  have hres := scanLoop_none_res_count_irrel rest 1 0 initResults
  refine ⟨?_, ?_, ?_⟩
  · simp only [scan_all_repositories, scanLoop_cons_none, hstep]
    rw [hres]
  · simp only [scan_all_repositories, scanLoop_cons_none, hstep]
    rw [hres]
  · simp only [scan_all_repositories, scanLoop_cons_none, hstep,
      scanLoop_none_count]
    omega

/-- Witness for C4 amended at a concrete failing repository followed by a
succeeding one. -/
theorem C4_failure_continues_witness :
    (scan_all_repositories [badRepo, okRepo] none).repositories =
      (scan_all_repositories [okRepo] none).repositories ∧
    (scan_all_repositories [badRepo, okRepo] none).classifications =
      (scan_all_repositories [okRepo] none).classifications ∧
    (scan_all_repositories [badRepo, okRepo] none).total_repos =
      (scan_all_repositories [okRepo] none).total_repos + 1 :=
  C4_failure_continues_but_unrecorded badRepo [okRepo] rfl

/-- C4 counterexample.  Scanning a failing repository and a succeeding one:
the failure of bad-repo is suppressed and the scan continues, but the
result data holds no Failure outcome of any kind — the repositories list
and every classification bucket mention only ok-repo, and the ScanResults
shape has no field that could carry a failure record. -/
theorem C4_failure_not_recorded_counterexample :
    (scan_all_repositories [badRepo, okRepo] none).total_repos = 2 ∧
    (scan_all_repositories [badRepo, okRepo] none).repositories.map RepoData.name =
      ["ok-repo"] ∧
    (scan_all_repositories [badRepo, okRepo] none).classifications =
      ⟨[], [], ["ok-repo"], [], []⟩ := by
  decide

/-- C5 amended.  Of the supplementary single-repository fetches, only the
workflows fetch is guarded by its own handler: when it fails the repository
is still classified (on the metadata fields, which the workflows fetch does
not touch) and appears in the result with an empty workflow list.  A
failing branches fetch instead aborts the record of that repository — the
outer handler returns None — though other repositories are unaffected
(shown by the continuation property proved for C4). -/
theorem C5_only_workflows_failure_tolerated :
    ∀ (repo : Repo) (e : GhError),
      (∃ ls, repo.getLanguages = .ok ls) →
      (∃ bs, repo.getBranches = .ok bs) →
      (∃ ts, repo.getTags = .ok ts) →
      (∃ tp, repo.getTopics = .ok tp) →
      ((scan_repository { repo with getWorkflows := .error e }).map
          RepoData.classification = some (classify_repository repo) ∧
        (scan_repository { repo with getWorkflows := .error e }).map
          RepoData.workflows = some [] ∧
        scan_repository { repo with getBranches := .error e } = none) := by
  intro repo e hL hB hT hP
  obtain ⟨ls, hls⟩ := hL
  obtain ⟨bs, hbs⟩ := hB
  obtain ⟨ts, hts⟩ := hT
  obtain ⟨tp, htp⟩ := hP
  refine ⟨?_, ?_, ?_⟩
  · simp [scan_repository, hls, hbs, hts, htp]
    exact classify_repository_congr _ _ rfl rfl rfl rfl rfl
  · simp [scan_repository, hls, hbs, hts, htp]
  · simp [scan_repository, hls]

/-- Witness for C5 amended at a concrete repository: with the workflows
fetch failing the repository is still classified CONSOLIDATE, with the
branches fetch failing it is dropped. -/
theorem C5_only_workflows_failure_tolerated_witness :
    (scan_repository { baseRepo with getWorkflows := .error (.github "boom") }).map
        RepoData.classification = some (classify_repository baseRepo) ∧
    (scan_repository { baseRepo with getWorkflows := .error (.github "boom") }).map
        RepoData.workflows = some [] ∧
    scan_repository { baseRepo with getBranches := .error (.github "boom") } = none :=
  C5_only_workflows_failure_tolerated baseRepo (.github "boom")
    ⟨_, rfl⟩ ⟨_, rfl⟩ ⟨_, rfl⟩ ⟨_, rfl⟩

/-- C5 counterexample.  A repository whose branches fetch fails — a
supplementary single-resource fetch named by the claim — does not appear
in the result with a classification: scan_repository returns None and the
scan records nothing for it. -/
theorem C5_branches_failure_drops_resource :
    scan_repository branchFailRepo = none ∧
    (scan_all_repositories [branchFailRepo] none).repositories = [] := by
  decide

/-- C3.  Evaluation of the extractor at inputs on which it raises: a page
whose properties.title.title array is present but empty makes the title
chain index an empty list (IndexError), a record without an id key makes
the page["id"] subscript raise KeyError, and in scan_notion such an
exception escapes the per-record loop and turns the whole platform result
into the error status instead of degrading the one field. -/
theorem C3_extractor_raises_eval :
    extract_page emptyTitlePage = .error .indexError ∧
    extract_page { okRawPage with id := none } = .error .keyError ∧
    scan_notion (.ok [emptyTitlePage] []) "k" =
      .error "IndexError: list index out of range" := by
  decide

/-- C6 amended.  A platform whose credential is absent from the environment
(or empty, which is falsy) is skipped — its scan method is never invoked —
but the snapshot records no entry for it at all: the platforms mapping
holds exactly the platforms whose credential is present, so nothing in the
snapshot distinguishes a skipped platform from an unconfigured one. -/
theorem C6_absent_credential_no_entry :
    ∀ (env : Env) (notion : NotionClient),
      (scan_all_platforms env notion).platforms.map Prod.fst =
        (if pyTruthy env.NOTION_API_KEY then ["notion"] else []) ++
        (if pyTruthy env.LINEAR_API_KEY then ["linear"] else []) ++
        (if pyTruthy env.JIRA_API_TOKEN then ["jira"] else []) := by
  intro env notion
  simp only [scan_all_platforms]
  split_ifs <;> simp

/-- Witness for C6 amended at a concrete environment holding only the
Linear credential. -/
theorem C6_absent_credential_no_entry_witness :
    (scan_all_platforms ⟨none, some "lk", none⟩ (.ok [] [])).platforms.map Prod.fst =
      (if pyTruthy (none : Option String) then ["notion"] else []) ++
      (if pyTruthy (some "lk") then ["linear"] else []) ++
      (if pyTruthy (none : Option String) then ["jira"] else []) :=
  C6_absent_credential_no_entry ⟨none, some "lk", none⟩ (.ok [] [])

/-- C6 counterexample.  With the Notion credential absent and the other two
present, the platforms mapping of the snapshot holds the linear and jira entries
only: no entry — in particular no skipped-status entry — is recorded for
the credential-less notion platform. -/
theorem C6_no_skipped_entry_counterexample :
    (scan_all_platforms ⟨none, some "linear-key", some "jira-key"⟩
        (.ok [okRawPage] [])).platforms =
      [("linear", .notImplemented), ("jira", .notImplemented)] := by
  decide

/-- C10.  On a successful Notion scan the success result carries the full
extracted page count in total_pages while the pages list itself is
truncated to the first 50 entries; the databases list is returned whole. -/
theorem C10_notion_pages_truncated :
    ∀ (k : String) (rawPages : List RawPage) (rawDbs : List RawDb)
      (pages : List PageData) (dbs : List DbData),
      extractAll extract_page rawPages = .ok pages →
      extractAll extract_db rawDbs = .ok dbs →
      (scan_notion (.ok rawPages rawDbs) k =
          .success pages.length dbs.length (pages.take 50) dbs ∧
        (pages.take 50).length = min 50 pages.length) := by
  intro k rp rd ps ds hp hd
  exact ⟨by simp [scan_notion, hp, hd], by simp⟩

/-- Witness for C10 at sixty enumerated pages: total_pages reports 60 while
the returned pages list is the 50-entry truncation. -/
theorem C10_notion_pages_truncated_witness :
    (scan_notion (.ok manyRawPages []) "k" =
        .success (List.replicate 60 okPageData).length 0
          ((List.replicate 60 okPageData).take 50) [] ∧
      ((List.replicate 60 okPageData).take 50).length =
        min 50 (List.replicate 60 okPageData).length) :=
  C10_notion_pages_truncated "k" manyRawPages [] (List.replicate 60 okPageData) []
    (by decide) rfl

end Trancendos
